import Mathlib

/-!
A shallow embedding of the peerswap swap-registry engine
(`swap/service.go`) and proofs about its dispatch, admission and
error-handling behaviour.

Conventions of the embedding:

* Collaborator code that lives outside `service.go` (the state machine
  engine, wallets, the messenger, JSON marshalling, message validation)
  is abstracted as an `Env` of oracle functions; each service operation
  takes the `Env` explicitly.
* Go mutates `SwapStateMachine` values through pointers that are shared
  with the registry map `activeSwaps`.  The embedding makes every such
  mutation an explicit map write-back (`AddActiveSwap`) at the key under
  which the machine is registered.
* Each operation returns, besides the new registry state and the Go
  return value, a trace of the `SendEvent` invocations it performed:
  the machine value handed to `SendEvent` together with the event.
-/

set_option autoImplicit false

namespace PeerswapSwap

/-- Go `SwapType` (`SWAPTYPE_IN` / `SWAPTYPE_OUT`). -/
inductive SwapType
  | swaptypeIn
  | swaptypeOut
deriving DecidableEq, Repr

/-- Go `SwapRole` (`SWAPROLE_SENDER` / `SWAPROLE_RECEIVER`). -/
inductive SwapRole
  | sender
  | receiver
deriving DecidableEq, Repr

/-- Which of the four role state machines a `SwapStateMachine` runs
(the transition table installed by the `newSwap*FSM` / `swap*FromStore`
constructors). -/
inductive MachineKind
  | swapInSender
  | swapInReceiver
  | swapOutSender
  | swapOutReceiver
deriving DecidableEq, Repr

/-- The peerswap wire message types dispatched by `OnMessageReceived`.
`otherKnown` stands for any further message type known to the
`messages` package but not handled by the switch (its `default` arm). -/
inductive MessageType
  | swapOutRequest
  | swapOutAgreement
  | openingTxBroadcasted
  | canceled
  | swapInRequest
  | swapInAgreement
  | coopClose
  | otherKnown (tag : String)
deriving DecidableEq, Repr

/-- Go `SwapId`: a 32-byte identifier rendered as hex.  The embedding
carries the rendered form; `render` is Go `SwapId.String()`. -/
structure SwapId where
  hex : String
deriving DecidableEq, Repr

def SwapId.render (i : SwapId) : String := i.hex

def isHexChar (c : Char) : Bool :=
  c.isDigit || ('a' ≤ c && c ≤ 'f') || ('A' ≤ c && c ≤ 'F')

/-- Modelled from the spec: `ParseSwapIdFromString` is not under `src/`;
the spec says the parser "accepts exactly 64 hex characters". -/
def ParseSwapIdFromString (s : String) : Except String SwapId :=
  if s.length = 64 && s.data.all isHexChar then .ok ⟨s⟩
  else .error "cannot parse swap id"

/-- The peerswap events injected by `service.go` (`Event_*`). -/
inductive Event
  | onSwapOutStarted
  | swapInSenderOnSwapInRequested
  | swapInReceiverOnRequestReceived
  | onSwapOutRequestReceived
  | swapInSenderOnAgreementReceived
  | onFeeInvoiceReceived
  | onInvalidMessage
  | onFeeInvoicePaid
  | onClaimInvoicePaid
  | onTxOpenedMessage
  | onTxConfirmed
  | onCsvPassed
  | onCancelReceived
  | onCoopCloseReceived
  | onTimeout
deriving DecidableEq, Repr

/-- The Go error values that `service.go` produces or compares against. -/
inductive GoError
  | swapDoesNotExist
  | eventRejected
  | unexpectedPeer (peerId : String) (swapId : String)
  | payloadTooLarge
  | activeSwapOnChannel
  | unknownMessageType (tag : String)
  | msgError (s : String)
deriving DecidableEq, Repr

def PEERSWAP_PROTOCOL_VERSION : Nat := 2

def btc_chain : String := "btc"

def l_btc_chain : String := "l-btc"

/-- Wire message `SwapOutRequestMessage`. -/
structure SwapOutRequestMessage where
  protocolVersion : Nat
  swapId : SwapId
  asset : String
  network : String
  scid : String
  amount : Nat
  pubkey : String
deriving DecidableEq, Repr

/-- Wire message `SwapInRequestMessage` (same shape as the out request). -/
structure SwapInRequestMessage where
  protocolVersion : Nat
  swapId : SwapId
  asset : String
  network : String
  scid : String
  amount : Nat
  pubkey : String
deriving DecidableEq, Repr

/-- Wire message `SwapOutAgreementMessage`. -/
structure SwapOutAgreementMessage where
  protocolVersion : Nat
  swapId : SwapId
  pubkey : String
  payreq : String
deriving DecidableEq, Repr

/-- Wire message `SwapInAgreementMessage`. -/
structure SwapInAgreementMessage where
  protocolVersion : Nat
  swapId : SwapId
  pubkey : String
  premium : Nat
deriving DecidableEq, Repr

/-- Wire message `OpeningTxBroadcastedMessage`. -/
structure OpeningTxBroadcastedMessage where
  swapId : SwapId
  payreq : String
  txId : String
  scriptOut : Nat
  blindingKey : String
deriving DecidableEq, Repr

/-- Wire message `CancelMessage`. -/
structure CancelMessage where
  swapId : SwapId
  message : String
deriving DecidableEq, Repr

/-- Wire message `CoopCloseMessage`. -/
structure CoopCloseMessage where
  swapId : SwapId
  message : String
  privkey : String
deriving DecidableEq, Repr

/-- The sum of peerswap wire messages, as fed to `MarshalPeerswapMessage`. -/
inductive PeerswapMessage
  | outRequest (m : SwapOutRequestMessage)
  | inRequest (m : SwapInRequestMessage)
  | outAgreement (m : SwapOutAgreementMessage)
  | inAgreement (m : SwapInAgreementMessage)
  | openingTx (m : OpeningTxBroadcastedMessage)
  | cancelMsg (m : CancelMessage)
  | coopCloseMsg (m : CoopCloseMessage)
deriving DecidableEq, Repr

/-- Go `SwapData`: the per-swap record owned by its state machine.
`privkeyPubkeyHex` stands for the hex encoding of
`GetPrivkey().PubKey().SerializeCompressed()` of the ephemeral key. -/
structure SwapData where
  id : SwapId
  swapType : SwapType
  role : SwapRole
  initiatorNodeId : String
  peerNodeId : String
  privkeyPubkeyHex : String
  swapOutRequest : Option SwapOutRequestMessage
  swapInRequest : Option SwapInRequestMessage
  swapOutAgreement : Option SwapOutAgreementMessage
  swapInAgreement : Option SwapInAgreementMessage
  openingTxBroadcasted : Option OpeningTxBroadcastedMessage
  cancel : Option CancelMessage
  coopClose : Option CoopCloseMessage
  openingTxHex : String
  cancelMessage : String
  nextMessage : List Nat
  nextMessageType : Option MessageType
  lastErr : Option GoError
deriving DecidableEq, Repr

/-- The zero value `&SwapData{}` installed by the FSM constructors. -/
def emptySwapData : SwapData :=
  { id := ⟨""⟩
  , swapType := SwapType.swaptypeIn
  , role := SwapRole.sender
  , initiatorNodeId := ""
  , peerNodeId := ""
  , privkeyPubkeyHex := ""
  , swapOutRequest := none
  , swapInRequest := none
  , swapOutAgreement := none
  , swapInAgreement := none
  , openingTxBroadcasted := none
  , cancel := none
  , coopClose := none
  , openingTxHex := ""
  , cancelMessage := ""
  , nextMessage := []
  , nextMessageType := none
  , lastErr := none }

/-- Modelled from the spec: `SwapData.GetScid` is not under `src/`; the
scid of a swap is the `Scid` field of its stored request envelope. -/
def SwapData.GetScid (d : SwapData) : String :=
  match d.swapOutRequest with
  | some r => r.scid
  | none =>
    match d.swapInRequest with
    | some r => r.scid
    | none => ""

/-- Modelled from the spec: `SwapData.GetChain` is not under `src/`;
`L_BTC` requests carry an asset, `BTC` requests carry a network name. -/
def SwapData.GetChain (d : SwapData) : String :=
  match d.swapOutRequest with
  | some r => if r.asset ≠ "" then l_btc_chain else btc_chain
  | none =>
    match d.swapInRequest with
    | some r => if r.asset ≠ "" then l_btc_chain else btc_chain
    | none => btc_chain

/-- Go `SwapStateMachine` as seen by `service.go`: identity, the stored
`(Type, Role)` pair, the installed transition table and the data record. -/
structure SwapStateMachine where
  id : String
  swapId : SwapId
  machineType : SwapType
  role : SwapRole
  kind : MachineKind
  data : SwapData
deriving DecidableEq, Repr

/-- The registry (`SwapService`): the map of active swaps, as an
association list keyed by the rendered swap id. -/
structure SwapService where
  activeSwaps : List (String × SwapStateMachine)
  bitcoinEnabled : Bool
  liquidEnabled : Bool
deriving DecidableEq, Repr

def emptyService : SwapService :=
  { activeSwaps := [], bitcoinEnabled := true, liquidEnabled := true }

/-- Map assignment `m[k] = v` on the association list (replaces the
first binding of `k`, appends when absent). -/
def mapSet (l : List (String × SwapStateMachine)) (k : String)
    (m : SwapStateMachine) : List (String × SwapStateMachine) :=
  match l with
  | [] => [(k, m)]
  | (k', m') :: rest =>
    if k' = k then (k, m) :: rest else (k', m') :: mapSet rest k m

/-- Map lookup. -/
def mapGet (l : List (String × SwapStateMachine)) (k : String) :
    Option SwapStateMachine :=
  match l with
  | [] => none
  | (k', m') :: rest => if k' = k then some m' else mapGet rest k

/-- Map deletion (removes the first binding of `k`). -/
def mapDel (l : List (String × SwapStateMachine)) (k : String) :
    List (String × SwapStateMachine) :=
  match l with
  | [] => []
  | (k', m') :: rest =>
    if k' = k then rest else (k', m') :: mapDel rest k

/-- The collaborators of `SwapService` that live outside `service.go`:
the FSM engine (`SendEvent`, `Recover`, `IsFinished`), key generation,
the `messages` package, JSON (un)marshalling, message validation and
the per-chain wallets.  Each is an oracle function. -/
structure Env where
  freshSwapId : SwapId
  freshPubkeyHex : String
  sendEvent : SwapStateMachine → Event → SwapStateMachine × Bool × Option GoError
  hexToMsgType : String → Except GoError MessageType
  unmarshalOutRequest : List Nat → Except GoError SwapOutRequestMessage
  unmarshalInRequest : List Nat → Except GoError SwapInRequestMessage
  unmarshalOutAgreement : List Nat → Except GoError SwapOutAgreementMessage
  unmarshalInAgreement : List Nat → Except GoError SwapInAgreementMessage
  unmarshalOpeningTx : List Nat → Except GoError OpeningTxBroadcastedMessage
  unmarshalCancel : List Nat → Except GoError CancelMessage
  unmarshalCoopClose : List Nat → Except GoError CoopCloseMessage
  marshal : PeerswapMessage → Except GoError (List Nat × MessageType)
  sendMessage : String → List Nat → MessageType → Option GoError
  validateOutRequest : SwapOutRequestMessage → Option String
  validateInRequest : SwapInRequestMessage → Option String
  validateOutAgreement : SwapOutAgreementMessage → Option String
  validateInAgreement : SwapInAgreementMessage → Option String
  validateOpeningTx : String → OpeningTxBroadcastedMessage → Option String
  validateCoopClose : CoopCloseMessage → Option String
  liquidWalletAsset : String
  bitcoinWalletNetwork : String
  isFinished : SwapStateMachine → Bool
  recover : SwapStateMachine → Bool × Option GoError

/-- Trace of `SendEvent` invocations: the machine value handed to the
engine together with the injected event. -/
abbrev Trace := List (SwapStateMachine × Event)

/-- Result shape of the registry handlers: new registry state, the Go
error return, and the `SendEvent` trace. -/
abbrev HandlerResult := SwapService × Option GoError × Trace

/-- Go `AddActiveSwap`: `s.activeSwaps[swapId] = swap`.  Also used for the
explicit write-backs that model Go pointer mutation of a registered
machine. -/
def AddActiveSwap (s : SwapService) (swapId : String) (m : SwapStateMachine) :
    SwapService :=
  { s with activeSwaps := mapSet s.activeSwaps swapId m }

/-- Go `GetActiveSwap`: the active swap, or `ErrSwapDoesNotExist`. -/
def GetActiveSwap (s : SwapService) (swapId : String) :
    Except GoError SwapStateMachine :=
  match mapGet s.activeSwaps swapId with
  | some swap => .ok swap
  | none => .error GoError.swapDoesNotExist

/-- Go `RemoveActiveSwap`: `delete(s.activeSwaps, swapId)`. -/
def RemoveActiveSwap (s : SwapService) (swapId : String) : SwapService :=
  { s with activeSwaps := mapDel s.activeSwaps swapId }

/-- Go `hasActiveSwapOnChannel`: some active swap has the given scid. -/
def hasActiveSwapOnChannel (s : SwapService) (channelId : String) : Bool :=
  s.activeSwaps.any (fun kv => kv.2.data.GetScid == channelId)

/-- Go `isMessageSenderExpectedPeer`: true when the sender id matches the
`PeerNodeId` of the swap. -/
def isMessageSenderExpectedPeer (s : SwapService) (senderId : String)
    (swapId : SwapId) : Except GoError Bool :=
  match GetActiveSwap s swapId.render with
  | .error e => .error e
  | .ok swap => .ok (swap.data.peerNodeId == senderId)

/-- Modelled from the spec: `NewSwapData` is not under `src/`; it mints
the sender-side record with a fresh ephemeral key. -/
def NewSwapData (env : Env) (id : SwapId) (t : SwapType)
    (initiatorId peerId : String) : SwapData :=
  { emptySwapData with
    id := id
  , swapType := t
  , role := SwapRole.sender
  , initiatorNodeId := initiatorId
  , peerNodeId := peerId
  , privkeyPubkeyHex := env.freshPubkeyHex }

/-- Modelled from the spec: `NewSwapDataFromRequest` is not under
`src/`; it builds the responder-side record for the given swap id,
peer and swap type. -/
def NewSwapDataFromRequest (env : Env) (id : SwapId) (peerId : String)
    (t : SwapType) : SwapData :=
  { emptySwapData with
    id := id
  , swapType := t
  , role := SwapRole.receiver
  , initiatorNodeId := peerId
  , peerNodeId := peerId
  , privkeyPubkeyHex := env.freshPubkeyHex }

/-- Go `WithSwapInMessage` on `SwapData`. -/
def SwapData.withSwapInMessage (d : SwapData) (m : SwapInRequestMessage) :
    SwapData :=
  { d with swapInRequest := some m }

/-- Go `WithSwapOutMessage` on `SwapData`. -/
def SwapData.withSwapOutMessage (d : SwapData) (m : SwapOutRequestMessage) :
    SwapData :=
  { d with swapOutRequest := some m }

/-- Modelled from the spec: `newSwapOutSenderFSM` is not under `src/`;
it mints a fresh swap id and installs the out-sender transition table
over a zero-value data record. -/
def newSwapOutSenderFSM (env : Env) : SwapStateMachine :=
  { id := env.freshSwapId.render
  , swapId := env.freshSwapId
  , machineType := SwapType.swaptypeOut
  , role := SwapRole.sender
  , kind := MachineKind.swapOutSender
  , data := emptySwapData }

/-- Modelled from the spec: `newSwapInSenderFSM` is not under `src/`. -/
def newSwapInSenderFSM (env : Env) : SwapStateMachine :=
  { id := env.freshSwapId.render
  , swapId := env.freshSwapId
  , machineType := SwapType.swaptypeIn
  , role := SwapRole.sender
  , kind := MachineKind.swapInSender
  , data := emptySwapData }

/-- Modelled from the spec: `newSwapInReceiverFSM` is not under `src/`;
it installs the in-receiver transition table for the given swap id. -/
def newSwapInReceiverFSM (swapId : SwapId) : SwapStateMachine :=
  { id := swapId.render
  , swapId := swapId
  , machineType := SwapType.swaptypeIn
  , role := SwapRole.receiver
  , kind := MachineKind.swapInReceiver
  , data := emptySwapData }

/-- Modelled from the spec: `newSwapOutReceiverFSM` is not under `src/`. -/
def newSwapOutReceiverFSM (swapId : SwapId) : SwapStateMachine :=
  { id := swapId.render
  , swapId := swapId
  , machineType := SwapType.swaptypeOut
  , role := SwapRole.receiver
  , kind := MachineKind.swapOutReceiver
  , data := emptySwapData }

/-- The machine-constructor selection of `RecoverSwaps`: the if-chain
over the stored `(Type, Role)` pair choosing among
`swapInSenderFromStore`, `swapInReceiverFromStore`,
`swapOutSenderFromStore` and `swapOutReceiverFromStore`. -/
def recoverKind (t : SwapType) (r : SwapRole) : MachineKind :=
  if t = SwapType.swaptypeIn ∧ r = SwapRole.sender then
    MachineKind.swapInSender
  else if t = SwapType.swaptypeIn ∧ r = SwapRole.receiver then
    MachineKind.swapInReceiver
  else if t = SwapType.swaptypeOut ∧ r = SwapRole.sender then
    MachineKind.swapOutSender
  else
    MachineKind.swapOutReceiver

/-- Modelled from the spec: the persisted record is the full `SwapData`
serialized; `ListAll` rebuilds the stored machines from it, so the
stored machine `Type`/`Role` fields are the data fields. -/
def machineOfStored (d : SwapData) : SwapStateMachine :=
  { id := d.id.render
  , swapId := d.id
  , machineType := d.swapType
  , role := d.role
  , kind := recoverKind d.swapType d.role
  , data := d }

/-- Go `RecoverSwaps` over a given store listing: skip finished swaps,
rebuild the role machine from the stored `(Type, Role)`, register it
and run `Recover()`. -/
def RecoverSwaps (env : Env) (s : SwapService) :
    List SwapData → SwapService × Option GoError
  | [] => (s, none)
  | d :: rest =>
    let swap := machineOfStored d
    if env.isFinished swap then RecoverSwaps env s rest
    else
      let swap := { swap with kind := recoverKind swap.machineType swap.role }
      let s1 := AddActiveSwap s swap.id swap
      match env.recover swap with
      | (_, some e) => (s1, some e)
      | (done, none) =>
        let s2 := if done then RemoveActiveSwap s1 swap.id else s1
        RecoverSwaps env s2 rest

/-- Go `OnTxConfirmed`: store the confirmed tx hex on the swap data, then
inject `Event_OnTxConfirmed`; `ErrEventRejected` is swallowed. -/
def OnTxConfirmed (env : Env) (s : SwapService) (swapId : String)
    (txHex : String) : HandlerResult :=
  match GetActiveSwap s swapId with
  | .error e => (s, some e, [])
  | .ok swap =>
    let swap := { swap with data := { swap.data with openingTxHex := txHex } }
    let s1 := AddActiveSwap s swapId swap
    let r := env.sendEvent swap Event.onTxConfirmed
    let s2 := AddActiveSwap s1 swapId r.1
    if r.2.2 = some GoError.eventRejected then
      (s2, none, [(swap, Event.onTxConfirmed)])
    else
      match r.2.2 with
      | some e => (s2, some e, [(swap, Event.onTxConfirmed)])
      | none =>
        let s3 := if r.2.1 then RemoveActiveSwap s2 swap.id else s2
        (s3, none, [(swap, Event.onTxConfirmed)])

/-- Go `OnCsvPassed`: inject `Event_OnCsvPassed`; `ErrEventRejected` is
swallowed. -/
def OnCsvPassed (env : Env) (s : SwapService) (swapId : String) :
    HandlerResult :=
  match GetActiveSwap s swapId with
  | .error e => (s, some e, [])
  | .ok swap =>
    let r := env.sendEvent swap Event.onCsvPassed
    let s1 := AddActiveSwap s swapId r.1
    if r.2.2 = some GoError.eventRejected then
      (s1, none, [(swap, Event.onCsvPassed)])
    else
      match r.2.2 with
      | some e => (s1, some e, [(swap, Event.onCsvPassed)])
      | none =>
        let s2 := if r.2.1 then RemoveActiveSwap s1 swap.id else s1
        (s2, none, [(swap, Event.onCsvPassed)])

/-- The request staged by `SwapOut`: protocol version 2, the fresh swap
id, the asset/network pair picked by the chain if-chain, and the
compressed ephemeral pubkey of the new data record. -/
def swapOutStagedRequest (env : Env) (d0 : SwapData) (sid : SwapId)
    (chain channelId : String) (amount : Nat) : SwapOutRequestMessage :=
  let assetNetwork :=
    if chain = l_btc_chain then (env.liquidWalletAsset, "")
    else if chain = btc_chain then ("", env.bitcoinWalletNetwork)
    else ("", "")
  { protocolVersion := PEERSWAP_PROTOCOL_VERSION
  , swapId := sid
  , asset := assetNetwork.1
  , network := assetNetwork.2
  , scid := channelId
  , amount := amount
  , pubkey := d0.privkeyPubkeyHex }

/-- Go `SwapOut`: admission check, mint the out-sender machine, stage the
`SwapOutRequest`, marshal it into `NextMessage`, then fire
`Event_OnSwapOutStarted`. -/
def SwapOut (env : Env) (s : SwapService)
    (peer chain channelId initiator : String) (amount : Nat) :
    SwapService × Except GoError SwapStateMachine × Trace :=
  if hasActiveSwapOnChannel s channelId then
    (s, .error GoError.activeSwapOnChannel, [])
  else
    let shell := newSwapOutSenderFSM env
    let s1 := AddActiveSwap s shell.id shell
    let d0 := NewSwapData env shell.swapId SwapType.swaptypeOut initiator peer
    let req := swapOutStagedRequest env d0 shell.swapId chain channelId amount
    let d1 := { d0 with swapOutRequest := some req }
    match env.marshal (PeerswapMessage.outRequest req) with
    | .error e =>
      let swap := { shell with data := d1 }
      (AddActiveSwap s1 shell.id swap, .error e, [])
    | .ok (nextMessage, nextMessageType) =>
      let d2 := { d1 with
                  nextMessage := nextMessage
                , nextMessageType := some nextMessageType }
      let swap := { shell with data := d2 }
      let s2 := AddActiveSwap s1 shell.id swap
      let r := env.sendEvent swap Event.onSwapOutStarted
      let s3 := AddActiveSwap s2 shell.id r.1
      match r.2.2 with
      | some e => (s3, .error e, [(swap, Event.onSwapOutStarted)])
      | none =>
        let s4 := if r.2.1 then RemoveActiveSwap s3 swap.id else s3
        (s4, .ok r.1, [(swap, Event.onSwapOutStarted)])

/-- The request staged by `SwapIn` (same shape as the out request). -/
def swapInStagedRequest (env : Env) (d0 : SwapData) (sid : SwapId)
    (chain channelId : String) (amount : Nat) : SwapInRequestMessage :=
  let assetNetwork :=
    if chain = l_btc_chain then (env.liquidWalletAsset, "")
    else if chain = btc_chain then ("", env.bitcoinWalletNetwork)
    else ("", "")
  { protocolVersion := PEERSWAP_PROTOCOL_VERSION
  , swapId := sid
  , asset := assetNetwork.1
  , network := assetNetwork.2
  , scid := channelId
  , amount := amount
  , pubkey := d0.privkeyPubkeyHex }

/-- Go `SwapIn`: admission check, mint the in-sender machine, stage the
`SwapInRequest`, marshal it, then fire
`Event_SwapInSender_OnSwapInRequested`. -/
def SwapIn (env : Env) (s : SwapService)
    (peer chain channelId initiator : String) (amount : Nat) :
    SwapService × Except GoError SwapStateMachine × Trace :=
  if hasActiveSwapOnChannel s channelId then
    (s, .error GoError.activeSwapOnChannel, [])
  else
    let shell := newSwapInSenderFSM env
    let s1 := AddActiveSwap s shell.id shell
    let d0 := NewSwapData env shell.swapId SwapType.swaptypeIn initiator peer
    let req := swapInStagedRequest env d0 shell.swapId chain channelId amount
    let d1 := { d0 with swapInRequest := some req }
    match env.marshal (PeerswapMessage.inRequest req) with
    | .error e =>
      let swap := { shell with data := d1 }
      (AddActiveSwap s1 shell.id swap, .error e, [])
    | .ok (nextMessage, nextMessageType) =>
      let d2 := { d1 with
                  nextMessage := nextMessage
                , nextMessageType := some nextMessageType }
      let swap := { shell with data := d2 }
      let s2 := AddActiveSwap s1 shell.id swap
      let r := env.sendEvent swap Event.swapInSenderOnSwapInRequested
      let s3 := AddActiveSwap s2 shell.id r.1
      match r.2.2 with
      | some e => (s3, .error e, [(swap, Event.swapInSenderOnSwapInRequested)])
      | none =>
        let s4 := if r.2.1 then RemoveActiveSwap s3 swap.id else s3
        (s4, .ok r.1, [(swap, Event.swapInSenderOnSwapInRequested)])

/-- Go `OnSwapInRequestReceived`: admission check, validation (a failure
answers with a `CancelMessage` to the peer), then register the
in-receiver machine (its data record is built with `SWAPTYPE_OUT`, as
in the source) and fire `Event_SwapInReceiver_OnRequestReceived`. -/
def OnSwapInRequestReceived (env : Env) (s : SwapService) (swapId : SwapId)
    (peerId : String) (message : SwapInRequestMessage) : HandlerResult :=
  if hasActiveSwapOnChannel s message.scid then
    (s, some GoError.activeSwapOnChannel, [])
  else
    match env.validateInRequest message with
    | some verr =>
      match env.marshal (PeerswapMessage.cancelMsg
          { swapId := swapId, message := "invalid request " ++ verr }) with
      | .error e => (s, some e, [])
      | .ok (msgBytes, msgType) =>
        (s, env.sendMessage peerId msgBytes msgType, [])
    | none =>
      let shell := newSwapInReceiverFSM swapId
      let s1 := AddActiveSwap s swapId.render shell
      let swap := { shell with data :=
        (NewSwapDataFromRequest env shell.swapId peerId
          SwapType.swaptypeOut).withSwapInMessage message }
      let s2 := AddActiveSwap s1 swapId.render swap
      let r := env.sendEvent swap Event.swapInReceiverOnRequestReceived
      let s3 := AddActiveSwap s2 swapId.render r.1
      let s4 := if r.2.1 then RemoveActiveSwap s3 swap.id else s3
      (s4, r.2.2, [(swap, Event.swapInReceiverOnRequestReceived)])

/-- Go `OnSwapOutRequestReceived`: admission check, validation (a failure
answers with a `CancelMessage`), then register the out-receiver machine
and fire `Event_OnSwapOutRequestReceived`. -/
def OnSwapOutRequestReceived (env : Env) (s : SwapService) (swapId : SwapId)
    (peerId : String) (message : SwapOutRequestMessage) : HandlerResult :=
  if hasActiveSwapOnChannel s message.scid then
    (s, some GoError.activeSwapOnChannel, [])
  else
    match env.validateOutRequest message with
    | some verr =>
      match env.marshal (PeerswapMessage.cancelMsg
          { swapId := swapId, message := "invalid request " ++ verr }) with
      | .error e => (s, some e, [])
      | .ok (msgBytes, msgType) =>
        (s, env.sendMessage peerId msgBytes msgType, [])
    | none =>
      let shell := newSwapOutReceiverFSM swapId
      let swap := { shell with data :=
        (NewSwapDataFromRequest env shell.swapId peerId
          SwapType.swaptypeOut).withSwapOutMessage message }
      let s1 := AddActiveSwap s swapId.render swap
      let r := env.sendEvent swap Event.onSwapOutRequestReceived
      let s2 := AddActiveSwap s1 swapId.render r.1
      match r.2.2 with
      | some e => (s2, some e, [(swap, Event.onSwapOutRequestReceived)])
      | none =>
        let s3 := if r.2.1 then RemoveActiveSwap s2 swap.id else s2
        (s3, none, [(swap, Event.onSwapOutRequestReceived)])

/-- Go `HandleInvalidMessage`: record the reason into `CancelMessage` and
fire `Event_OnInvalid_Message`.  `k` is the registry key under which
`swapFsm` is registered (Go mutates it through the shared pointer). -/
def HandleInvalidMessage (env : Env) (s : SwapService) (k : String)
    (swapFsm : SwapStateMachine) (verr : String) : HandlerResult :=
  let swap := { swapFsm with data :=
    { swapFsm.data with cancelMessage := "invalid request " ++ verr } }
  let s1 := AddActiveSwap s k swap
  let r := env.sendEvent swap Event.onInvalidMessage
  let s2 := AddActiveSwap s1 k r.1
  match r.2.2 with
  | some e => (s2, some e, [(swap, Event.onInvalidMessage)])
  | none =>
    let s3 := if r.2.1 then RemoveActiveSwap s2 swap.id else s2
    (s3, none, [(swap, Event.onInvalidMessage)])

/-- Go `OnSwapInAgreementReceived`: look up the swap; a validation failure
runs the inline cancel branch; otherwise store the envelope and fire
`Event_SwapInSender_OnAgreementReceived`. -/
def OnSwapInAgreementReceived (env : Env) (s : SwapService)
    (msg : SwapInAgreementMessage) : HandlerResult :=
  match GetActiveSwap s msg.swapId.render with
  | .error e => (s, some e, [])
  | .ok swap =>
    match env.validateInAgreement msg with
    | some verr =>
      let swap := { swap with data :=
        { swap.data with cancelMessage := "invalid request " ++ verr } }
      let s1 := AddActiveSwap s msg.swapId.render swap
      let r := env.sendEvent swap Event.onInvalidMessage
      let s2 := AddActiveSwap s1 msg.swapId.render r.1
      match r.2.2 with
      | some e => (s2, some e, [(swap, Event.onInvalidMessage)])
      | none =>
        let s3 := if r.2.1 then RemoveActiveSwap s2 swap.id else s2
        (s3, none, [(swap, Event.onInvalidMessage)])
    | none =>
      let swap := { swap with data :=
        { swap.data with swapInAgreement := some msg } }
      let s1 := AddActiveSwap s msg.swapId.render swap
      let r := env.sendEvent swap Event.swapInSenderOnAgreementReceived
      let s2 := AddActiveSwap s1 msg.swapId.render r.1
      match r.2.2 with
      | some e =>
        (s2, some e, [(swap, Event.swapInSenderOnAgreementReceived)])
      | none =>
        let s3 := if r.2.1 then RemoveActiveSwap s2 swap.id else s2
        (s3, none, [(swap, Event.swapInSenderOnAgreementReceived)])

/-- Go `OnSwapOutAgreementReceived`: look up the swap; a validation failure
goes through `HandleInvalidMessage`; otherwise store the envelope and
fire `Event_OnFeeInvoiceReceived`. -/
def OnSwapOutAgreementReceived (env : Env) (s : SwapService)
    (message : SwapOutAgreementMessage) : HandlerResult :=
  match GetActiveSwap s message.swapId.render with
  | .error e => (s, some e, [])
  | .ok swap =>
    match env.validateOutAgreement message with
    | some verr => HandleInvalidMessage env s message.swapId.render swap verr
    | none =>
      let swap := { swap with data :=
        { swap.data with swapOutAgreement := some message } }
      let s1 := AddActiveSwap s message.swapId.render swap
      let r := env.sendEvent swap Event.onFeeInvoiceReceived
      let s2 := AddActiveSwap s1 message.swapId.render r.1
      match r.2.2 with
      | some e => (s2, some e, [(swap, Event.onFeeInvoiceReceived)])
      | none =>
        let s3 := if r.2.1 then RemoveActiveSwap s2 swap.id else s2
        (s3, none, [(swap, Event.onFeeInvoiceReceived)])

/-- Go `OnFeeInvoicePaid`: fire `Event_OnFeeInvoicePaid` on the swap. -/
def OnFeeInvoicePaid (env : Env) (s : SwapService) (swapId : SwapId) :
    HandlerResult :=
  match GetActiveSwap s swapId.render with
  | .error e => (s, some e, [])
  | .ok swap =>
    let r := env.sendEvent swap Event.onFeeInvoicePaid
    let s1 := AddActiveSwap s swapId.render r.1
    match r.2.2 with
    | some e => (s1, some e, [(swap, Event.onFeeInvoicePaid)])
    | none =>
      let s2 := if r.2.1 then RemoveActiveSwap s1 swap.id else s1
      (s2, none, [(swap, Event.onFeeInvoicePaid)])

/-- Go `OnClaimInvoicePaid`: fire `Event_OnClaimInvoicePaid` on the swap. -/
def OnClaimInvoicePaid (env : Env) (s : SwapService) (swapId : SwapId) :
    HandlerResult :=
  match GetActiveSwap s swapId.render with
  | .error e => (s, some e, [])
  | .ok swap =>
    let r := env.sendEvent swap Event.onClaimInvoicePaid
    let s1 := AddActiveSwap s swapId.render r.1
    match r.2.2 with
    | some e => (s1, some e, [(swap, Event.onClaimInvoicePaid)])
    | none =>
      let s2 := if r.2.1 then RemoveActiveSwap s1 swap.id else s1
      (s2, none, [(swap, Event.onClaimInvoicePaid)])

/-- Go `OnTxOpenedMessage`: look up the swap; a validation failure (against
the swap chain) goes through `HandleInvalidMessage`; otherwise store
the envelope and fire `Event_OnTxOpenedMessage`. -/
def OnTxOpenedMessage (env : Env) (s : SwapService)
    (message : OpeningTxBroadcastedMessage) : HandlerResult :=
  match GetActiveSwap s message.swapId.render with
  | .error e => (s, some e, [])
  | .ok swap =>
    match env.validateOpeningTx swap.data.GetChain message with
    | some verr => HandleInvalidMessage env s message.swapId.render swap verr
    | none =>
      let swap := { swap with data :=
        { swap.data with openingTxBroadcasted := some message } }
      let s1 := AddActiveSwap s message.swapId.render swap
      let r := env.sendEvent swap Event.onTxOpenedMessage
      let s2 := AddActiveSwap s1 message.swapId.render r.1
      match r.2.2 with
      | some e => (s2, some e, [(swap, Event.onTxOpenedMessage)])
      | none =>
        let s3 := if r.2.1 then RemoveActiveSwap s2 swap.id else s2
        (s3, none, [(swap, Event.onTxOpenedMessage)])

/-- Go `OnCancelReceived`: store the `Cancel` envelope and fire
`Event_OnCancelReceived`. -/
def OnCancelReceived (env : Env) (s : SwapService) (swapId : SwapId)
    (cancelMsg : CancelMessage) : HandlerResult :=
  match GetActiveSwap s swapId.render with
  | .error e => (s, some e, [])
  | .ok swap =>
    let swap := { swap with data := { swap.data with cancel := some cancelMsg } }
    let s1 := AddActiveSwap s swapId.render swap
    let r := env.sendEvent swap Event.onCancelReceived
    let s2 := AddActiveSwap s1 swapId.render r.1
    match r.2.2 with
    | some e => (s2, some e, [(swap, Event.onCancelReceived)])
    | none =>
      let s3 := if r.2.1 then RemoveActiveSwap s2 swap.id else s2
      (s3, none, [(swap, Event.onCancelReceived)])

/-- Go `OnCoopCloseReceived`: look up the swap; a validation failure goes
through `HandleInvalidMessage`; otherwise store the envelope and fire
`Event_OnCoopCloseReceived`. -/
def OnCoopCloseReceived (env : Env) (s : SwapService) (swapId : SwapId)
    (coopCloseMessage : CoopCloseMessage) : HandlerResult :=
  match GetActiveSwap s swapId.render with
  | .error e => (s, some e, [])
  | .ok swap =>
    match env.validateCoopClose coopCloseMessage with
    | some verr => HandleInvalidMessage env s swapId.render swap verr
    | none =>
      let swap := { swap with data :=
        { swap.data with coopClose := some coopCloseMessage } }
      let s1 := AddActiveSwap s swapId.render swap
      let r := env.sendEvent swap Event.onCoopCloseReceived
      let s2 := AddActiveSwap s1 swapId.render r.1
      match r.2.2 with
      | some e => (s2, some e, [(swap, Event.onCoopCloseReceived)])
      | none =>
        let s3 := if r.2.1 then RemoveActiveSwap s2 swap.id else s2
        (s3, none, [(swap, Event.onCoopCloseReceived)])

/-- The type switch of `OnMessageReceived` (everything after the size
and type-tag checks): deserialize, peer-check the non-request types,
dispatch to the corresponding handler.  The `default` arm does
nothing. -/
def OnMessageReceivedBody (env : Env) (s : SwapService) (peerId : String)
    (payload : List Nat) : MessageType → HandlerResult
  | MessageType.otherKnown _ => (s, none, [])
  | MessageType.swapOutRequest =>
    match env.unmarshalOutRequest payload with
    | .error e => (s, some e, [])
    | .ok msg => OnSwapOutRequestReceived env s msg.swapId peerId msg
  | MessageType.swapOutAgreement =>
    match env.unmarshalOutAgreement payload with
    | .error e => (s, some e, [])
    | .ok msg =>
      match isMessageSenderExpectedPeer s peerId msg.swapId with
      | .error e => (s, some e, [])
      | .ok ok =>
        if !ok then
          (s, some (GoError.unexpectedPeer peerId msg.swapId.render), [])
        else OnSwapOutAgreementReceived env s msg
  | MessageType.openingTxBroadcasted =>
    match env.unmarshalOpeningTx payload with
    | .error e => (s, some e, [])
    | .ok msg =>
      match isMessageSenderExpectedPeer s peerId msg.swapId with
      | .error e => (s, some e, [])
      | .ok ok =>
        if !ok then
          (s, some (GoError.unexpectedPeer peerId msg.swapId.render), [])
        else OnTxOpenedMessage env s msg
  | MessageType.canceled =>
    match env.unmarshalCancel payload with
    | .error e => (s, some e, [])
    | .ok msg =>
      match isMessageSenderExpectedPeer s peerId msg.swapId with
      | .error e => (s, some e, [])
      | .ok ok =>
        if !ok then
          (s, some (GoError.unexpectedPeer peerId msg.swapId.render), [])
        else OnCancelReceived env s msg.swapId msg
  | MessageType.swapInRequest =>
    match env.unmarshalInRequest payload with
    | .error e => (s, some e, [])
    | .ok msg => OnSwapInRequestReceived env s msg.swapId peerId msg
  | MessageType.swapInAgreement =>
    match env.unmarshalInAgreement payload with
    | .error e => (s, some e, [])
    | .ok msg =>
      match isMessageSenderExpectedPeer s peerId msg.swapId with
      | .error e => (s, some e, [])
      | .ok ok =>
        if !ok then
          (s, some (GoError.unexpectedPeer peerId msg.swapId.render), [])
        else OnSwapInAgreementReceived env s msg
  | MessageType.coopClose =>
    match env.unmarshalCoopClose payload with
    | .error e => (s, some e, [])
    | .ok msg =>
      match isMessageSenderExpectedPeer s peerId msg.swapId with
      | .error e => (s, some e, [])
      | .ok ok =>
        if !ok then
          (s, some (GoError.unexpectedPeer peerId msg.swapId.render), [])
        else OnCoopCloseReceived env s msg.swapId msg

/-- Go `OnMessageReceived`: reject payloads larger than 100 KiB, parse the
type tag, then run the dispatch switch. -/
def OnMessageReceived (env : Env) (s : SwapService)
    (peerId msgTypeString : String) (payload : List Nat) : HandlerResult :=
  if payload.length > 100 * 1024 then
    (s, some GoError.payloadTooLarge, [])
  else
    match env.hexToMsgType msgTypeString with
    | .error e => (s, some e, [])
    | .ok msgType => OnMessageReceivedBody env s peerId payload msgType

def PaymentLabelSeparator : String := "_"

/-- Go `strings.SplitN(s, "_", 2)` over the character list
(`PaymentLabelSeparator` is the single character of `"_"`). -/
def splitN2Underscore : List Char → List (List Char)
  | [] => [[]]
  | c :: rest =>
    if c = '_' then [[], rest]
    else
      match splitN2Underscore rest with
      | [a] => [c :: a]
      | [a, b] => [c :: a, b]
      | other => other

/-- Go `getPaymentLabel`: the part before the first separator, or the
empty string when the description has no separator. -/
def getPaymentLabel (description : String) : String :=
  let parts := splitN2Underscore description.data
  if parts.length ≠ 2 then "" else String.mk (parts.headD [])

/-- Go `OnPayment`: dispatch `fee_<swapid>` descriptions to
`OnFeeInvoicePaid` and `claim_<swapid>` to `OnClaimInvoicePaid`; parse
failures and unknown labels only log and return (no error). -/
def OnPayment (env : Env) (s : SwapService) (description : String) :
    SwapService × Trace :=
  let label := getPaymentLabel description
  if label = "fee" then
    match ParseSwapIdFromString (String.mk (description.data.drop 4)) with
    | .error _ => (s, [])
    | .ok swapId =>
      let r := OnFeeInvoicePaid env s swapId
      (r.1, r.2.2)
  else if label = "claim" then
    match ParseSwapIdFromString (String.mk (description.data.drop 6)) with
    | .error _ => (s, [])
    | .ok swapId =>
      let r := OnClaimInvoicePaid env s swapId
      (r.1, r.2.2)
  else (s, [])

/-! ### Concrete fixtures used by witnesses and counterexamples -/

/-- The tag of the marshalled form of each wire message. -/
def msgTypeOf : PeerswapMessage → MessageType
  | PeerswapMessage.outRequest _ => MessageType.swapOutRequest
  | PeerswapMessage.inRequest _ => MessageType.swapInRequest
  | PeerswapMessage.outAgreement _ => MessageType.swapOutAgreement
  | PeerswapMessage.inAgreement _ => MessageType.swapInAgreement
  | PeerswapMessage.openingTx _ => MessageType.openingTxBroadcasted
  | PeerswapMessage.cancelMsg _ => MessageType.canceled
  | PeerswapMessage.coopCloseMsg _ => MessageType.coopClose

/-- A concrete 64-hex swap id. -/
def sid0 : SwapId := ⟨String.mk (List.replicate 64 'a')⟩

/-- A benign concrete environment: the engine accepts every event
without mutating the machine, validation passes, marshalling and
message transport succeed. -/
def env0 : Env :=
  { freshSwapId := sid0
  , freshPubkeyHex := "02aabb"
  , sendEvent := fun m _ => (m, false, none)
  , hexToMsgType := fun _ => .ok MessageType.swapOutRequest
  , unmarshalOutRequest := fun _ => .error (GoError.msgError "json")
  , unmarshalInRequest := fun _ => .error (GoError.msgError "json")
  , unmarshalOutAgreement := fun _ => .error (GoError.msgError "json")
  , unmarshalInAgreement := fun _ => .error (GoError.msgError "json")
  , unmarshalOpeningTx := fun _ => .error (GoError.msgError "json")
  , unmarshalCancel := fun _ => .error (GoError.msgError "json")
  , unmarshalCoopClose := fun _ => .error (GoError.msgError "json")
  , marshal := fun m => .ok ([7], msgTypeOf m)
  , sendMessage := fun _ _ _ => none
  , validateOutRequest := fun _ => none
  , validateInRequest := fun _ => none
  , validateOutAgreement := fun _ => none
  , validateInAgreement := fun _ => none
  , validateOpeningTx := fun _ _ => none
  , validateCoopClose := fun _ => none
  , liquidWalletAsset := "liquidasset"
  , bitcoinWalletNetwork := "mainnet"
  , isFinished := fun _ => false
  , recover := fun _ => (false, none) }

/-- A concrete in-request naming `sid0`. -/
def msgIn0 : SwapInRequestMessage :=
  { protocolVersion := 2
  , swapId := sid0
  , asset := ""
  , network := "mainnet"
  , scid := "539268x845x1"
  , amount := 100000
  , pubkey := "02cc" }

/-- A concrete out-agreement naming `sid0`. -/
def msgOutAgr0 : SwapOutAgreementMessage :=
  { protocolVersion := 2, swapId := sid0, pubkey := "02dd", payreq := "lnbc1" }

/-- A registered out-sender machine for `sid0` whose swap partner is
peer `A`. -/
def sw0 : SwapStateMachine :=
  { id := sid0.render
  , swapId := sid0
  , machineType := SwapType.swaptypeOut
  , role := SwapRole.sender
  , kind := MachineKind.swapOutSender
  , data := { emptySwapData with
              id := sid0
            , swapType := SwapType.swaptypeOut
            , peerNodeId := "A" } }

/-- A registry holding exactly `sw0`. -/
def sOne : SwapService :=
  { activeSwaps := [(sid0.render, sw0)]
  , bitcoinEnabled := true
  , liquidEnabled := true }

/-- A concrete out-request naming `sid0` on channel `539268x845x1`. -/
def msgOut0 : SwapOutRequestMessage :=
  { protocolVersion := 2
  , swapId := sid0
  , asset := ""
  , network := "mainnet"
  , scid := "539268x845x1"
  , amount := 100000
  , pubkey := "02cc" }

/-- Fixture: `sw0` with its out-request staged, so its scid is `539268x845x1`. -/
def sw1 : SwapStateMachine :=
  { sw0 with data := { sw0.data with swapOutRequest := some msgOut0 } }

/-- A registry holding exactly `sw1` (one active swap on
`539268x845x1`). -/
def sOneChan : SwapService :=
  { activeSwaps := [(sid0.render, sw1)]
  , bitcoinEnabled := true
  , liquidEnabled := true }

/-- The machine handed to `SendEvent` by a `SwapOut` whose marshal step
produced `(nm, nmt)`: the out-sender shell carrying the staged request
and the marshalled `NextMessage`. -/
def swapOutStagedMachine (env : Env) (peer chain channelId initiator : String)
    (amount : Nat) (nm : List Nat) (nmt : MessageType) : SwapStateMachine :=
  let d0 := NewSwapData env env.freshSwapId SwapType.swaptypeOut initiator peer
  let req := swapOutStagedRequest env d0 env.freshSwapId chain channelId amount
  { newSwapOutSenderFSM env with
    data := { d0 with
      swapOutRequest := some req
    , nextMessage := nm
    , nextMessageType := some nmt } }

/-! ### Association-list lemmas -/

theorem mapGet_mapSet_self (l : List (String × SwapStateMachine))
    (k : String) (m : SwapStateMachine) : mapGet (mapSet l k m) k = some m := by
  induction l with
  | nil => simp [mapSet, mapGet]
  | cons a rest ih =>
    obtain ⟨k', m'⟩ := a
    by_cases h : k' = k
    · simp [mapSet, mapGet, h]
    · simp [mapSet, mapGet, h, ih]

theorem mapDel_mapSet (l : List (String × SwapStateMachine)) (k : String)
    (m : SwapStateMachine) : mapDel (mapSet l k m) k = mapDel l k := by
  induction l with
  | nil => simp [mapSet, mapDel]
  | cons a rest ih =>
    obtain ⟨k', m'⟩ := a
    by_cases h : k' = k
    · simp [mapSet, mapDel, h]
    · simp [mapSet, mapDel, h, ih]

theorem countP_mapDel_le (l : List (String × SwapStateMachine)) (k : String)
    (p : String × SwapStateMachine → Bool) :
    (mapDel l k).countP p ≤ l.countP p := by
  induction l with
  | nil => simp [mapDel]
  | cons a rest ih =>
    obtain ⟨k', m'⟩ := a
    by_cases h : k' = k
    · subst h
      simp only [mapDel, if_pos rfl, List.countP_cons]
      exact Nat.le_add_right _ _
    · simp only [mapDel, if_neg h, List.countP_cons]
      exact Nat.add_le_add_right ih _

theorem countP_mapSet_le (l : List (String × SwapStateMachine)) (k : String)
    (m : SwapStateMachine) (p : String × SwapStateMachine → Bool) :
    (mapSet l k m).countP p ≤
      (mapDel l k).countP p + (if p (k, m) then 1 else 0) := by
  induction l with
  | nil =>
    simp only [mapSet, mapDel, List.countP_cons, List.countP_nil]
    by_cases hp : p (k, m) <;> simp [hp]
  | cons a rest ih =>
    obtain ⟨k', m'⟩ := a
    by_cases h : k' = k
    · simp only [mapSet, mapDel, h, if_true, List.countP_cons]
      by_cases hp : p (k, m) <;> simp [hp]
    · simp only [mapSet, mapDel, h, if_false, List.countP_cons]
      by_cases h1 : p (k', m') <;> by_cases h2 : p (k, m) <;>
        simp only [h1, h2, if_true, if_false] at ih ⊢ <;> omega

/-! ### The one-active-swap-per-channel invariant -/

/-- The entries of the registry holding a given scid. -/
abbrev scidP (c : String) : String × SwapStateMachine → Bool :=
  fun kv => kv.2.data.GetScid == c

/-- At most one active swap per short-channel-id. -/
def scidInvariant (s : SwapService) : Prop :=
  ∀ c : String, s.activeSwaps.countP (scidP c) ≤ 1

/-- The engine never changes the scid of a swap: `SendEvent` actions
populate tx and invoice fields, not the stored request envelopes. -/
def ScidPreserving (env : Env) : Prop :=
  ∀ m e, ((env.sendEvent m e).1).data.GetScid = m.data.GetScid

theorem countP_scid_eq_zero (s : SwapService) (c : String)
    (h : hasActiveSwapOnChannel s c = false) :
    s.activeSwaps.countP (scidP c) = 0 := by
  unfold hasActiveSwapOnChannel at h
  rw [List.any_eq_false] at h
  rw [List.countP_eq_zero]
  exact h

/-- Core preservation step: writing a machine whose scid is the channel
that had no active swap, at key `k`, over any intermediate list whose
`k`-free part agrees with the original registry, keeps every channel
count at one or below. -/
theorem scid_preserve_core (l lpre : List (String × SwapStateMachine))
    (k c0 : String) (m : SwapStateMachine)
    (hpre : mapDel lpre k = mapDel l k)
    (hinv : ∀ c, l.countP (scidP c) ≤ 1)
    (h0 : l.countP (scidP c0) = 0)
    (hm : m.data.GetScid = c0) :
    ∀ c, (mapSet lpre k m).countP (scidP c) ≤ 1 := by
  intro c
  have h1 := countP_mapSet_le lpre k m (scidP c)
  rw [hpre] at h1
  have h2 := countP_mapDel_le l k (scidP c)
  by_cases hc : c = c0
  · subst hc
    rw [h0] at h2
    cases hp : scidP c (k, m) <;> simp [hp] at h1 <;> omega
  · have hfalse : scidP c (k, m) = false := by
      show (m.data.GetScid == c) = false
      rw [hm]
      exact beq_eq_false_iff_ne.mpr (fun hcc => hc hcc.symm)
    rw [hfalse] at h1
    simp at h1
    exact le_trans h1 (le_trans h2 (hinv c))

theorem countP_scid_mapDel_le_one (l : List (String × SwapStateMachine))
    (k : String) (h : ∀ c, l.countP (scidP c) ≤ 1) :
    ∀ c, (mapDel l k).countP (scidP c) ≤ 1 :=
  fun c => le_trans (countP_mapDel_le l k (scidP c)) (h c)

theorem SwapOut_scid_preserved (env : Env) (s : SwapService)
    (hse : ScidPreserving env) (hinv : scidInvariant s)
    (peer chain channelId initiator : String) (amount : Nat) :
    scidInvariant (SwapOut env s peer chain channelId initiator amount).1 := by
  unfold SwapOut
  cases hbusy : hasActiveSwapOnChannel s channelId with
  | true =>
    rw [if_pos rfl]
    exact hinv
  | false =>
    rw [if_neg Bool.false_ne_true]
    have h0 := countP_scid_eq_zero s channelId hbusy
    dsimp only [AddActiveSwap, RemoveActiveSwap]
    intro c
    split
    · apply scid_preserve_core s.activeSwaps _ _ channelId _
        (mapDel_mapSet _ _ _) hinv h0
      rfl
    · split
      · apply scid_preserve_core s.activeSwaps _ _ channelId _
          ((mapDel_mapSet _ _ _).trans (mapDel_mapSet _ _ _)) hinv h0
        exact (hse _ _).trans rfl
      · split
        · apply countP_scid_mapDel_le_one
          apply scid_preserve_core s.activeSwaps _ _ channelId _
            ((mapDel_mapSet _ _ _).trans (mapDel_mapSet _ _ _)) hinv h0
          exact (hse _ _).trans rfl
        · apply scid_preserve_core s.activeSwaps _ _ channelId _
            ((mapDel_mapSet _ _ _).trans (mapDel_mapSet _ _ _)) hinv h0
          exact (hse _ _).trans rfl

theorem SwapIn_scid_preserved (env : Env) (s : SwapService)
    (hse : ScidPreserving env) (hinv : scidInvariant s)
    (peer chain channelId initiator : String) (amount : Nat) :
    scidInvariant (SwapIn env s peer chain channelId initiator amount).1 := by
  unfold SwapIn
  cases hbusy : hasActiveSwapOnChannel s channelId with
  | true =>
    rw [if_pos rfl]
    exact hinv
  | false =>
    rw [if_neg Bool.false_ne_true]
    have h0 := countP_scid_eq_zero s channelId hbusy
    dsimp only [AddActiveSwap, RemoveActiveSwap]
    intro c
    split
    · apply scid_preserve_core s.activeSwaps _ _ channelId _
        (mapDel_mapSet _ _ _) hinv h0
      rfl
    · split
      · apply scid_preserve_core s.activeSwaps _ _ channelId _
          ((mapDel_mapSet _ _ _).trans (mapDel_mapSet _ _ _)) hinv h0
        exact (hse _ _).trans rfl
      · split
        · apply countP_scid_mapDel_le_one
          apply scid_preserve_core s.activeSwaps _ _ channelId _
            ((mapDel_mapSet _ _ _).trans (mapDel_mapSet _ _ _)) hinv h0
          exact (hse _ _).trans rfl
        · apply scid_preserve_core s.activeSwaps _ _ channelId _
            ((mapDel_mapSet _ _ _).trans (mapDel_mapSet _ _ _)) hinv h0
          exact (hse _ _).trans rfl

theorem OnSwapOutRequestReceived_scid_preserved (env : Env) (s : SwapService)
    (hse : ScidPreserving env) (hinv : scidInvariant s) (sid : SwapId)
    (peerId : String) (message : SwapOutRequestMessage) :
    scidInvariant (OnSwapOutRequestReceived env s sid peerId message).1 := by
  unfold OnSwapOutRequestReceived
  cases hbusy : hasActiveSwapOnChannel s message.scid with
  | true =>
    rw [if_pos rfl]
    exact hinv
  | false =>
    rw [if_neg Bool.false_ne_true]
    have h0 := countP_scid_eq_zero s message.scid hbusy
    dsimp only [AddActiveSwap, RemoveActiveSwap]
    intro c
    split
    · split
      · exact hinv c
      · exact hinv c
    · split
      · apply scid_preserve_core s.activeSwaps _ _ message.scid _
          (mapDel_mapSet _ _ _) hinv h0
        exact (hse _ _).trans rfl
      · split
        · apply countP_scid_mapDel_le_one
          apply scid_preserve_core s.activeSwaps _ _ message.scid _
            (mapDel_mapSet _ _ _) hinv h0
          exact (hse _ _).trans rfl
        · apply scid_preserve_core s.activeSwaps _ _ message.scid _
            (mapDel_mapSet _ _ _) hinv h0
          exact (hse _ _).trans rfl

theorem OnSwapInRequestReceived_scid_preserved (env : Env) (s : SwapService)
    (hse : ScidPreserving env) (hinv : scidInvariant s) (sid : SwapId)
    (peerId : String) (message : SwapInRequestMessage) :
    scidInvariant (OnSwapInRequestReceived env s sid peerId message).1 := by
  unfold OnSwapInRequestReceived
  cases hbusy : hasActiveSwapOnChannel s message.scid with
  | true =>
    rw [if_pos rfl]
    exact hinv
  | false =>
    rw [if_neg Bool.false_ne_true]
    have h0 := countP_scid_eq_zero s message.scid hbusy
    dsimp only [AddActiveSwap, RemoveActiveSwap]
    intro c
    split
    · split
      · exact hinv c
      · exact hinv c
    · split
      · apply countP_scid_mapDel_le_one
        apply scid_preserve_core s.activeSwaps _ _ message.scid _
          ((mapDel_mapSet _ _ _).trans (mapDel_mapSet _ _ _)) hinv h0
        exact (hse _ _).trans rfl
      · apply scid_preserve_core s.activeSwaps _ _ message.scid _
          ((mapDel_mapSet _ _ _).trans (mapDel_mapSet _ _ _)) hinv h0
        exact (hse _ _).trans rfl

/-- Claim C3: for every channel at most one active swap has that scid:
`SwapOut`, `SwapIn`, `OnSwapOutRequestReceived` and
`OnSwapInRequestReceived` each first check `hasActiveSwapOnChannel` and
fail with `ErrActiveSwapOnChannel` (registering nothing) when the
channel is busy, and each of the four preserves the at-most-one-per-scid
invariant. -/
theorem active_swap_per_channel_admission (env : Env) (s : SwapService) :
    ((∀ peer chain channelId initiator amount,
        hasActiveSwapOnChannel s channelId = true →
        SwapOut env s peer chain channelId initiator amount =
          (s, Except.error GoError.activeSwapOnChannel, [])) ∧
     (∀ peer chain channelId initiator amount,
        hasActiveSwapOnChannel s channelId = true →
        SwapIn env s peer chain channelId initiator amount =
          (s, Except.error GoError.activeSwapOnChannel, [])) ∧
     (∀ sid peerId (message : SwapOutRequestMessage),
        hasActiveSwapOnChannel s message.scid = true →
        OnSwapOutRequestReceived env s sid peerId message =
          (s, some GoError.activeSwapOnChannel, [])) ∧
     (∀ sid peerId (message : SwapInRequestMessage),
        hasActiveSwapOnChannel s message.scid = true →
        OnSwapInRequestReceived env s sid peerId message =
          (s, some GoError.activeSwapOnChannel, []))) ∧
    (ScidPreserving env → scidInvariant s →
      (∀ peer chain channelId initiator amount,
        scidInvariant (SwapOut env s peer chain channelId initiator amount).1) ∧
      (∀ peer chain channelId initiator amount,
        scidInvariant (SwapIn env s peer chain channelId initiator amount).1) ∧
      (∀ sid peerId message,
        scidInvariant (OnSwapOutRequestReceived env s sid peerId message).1) ∧
      (∀ sid peerId message,
        scidInvariant (OnSwapInRequestReceived env s sid peerId message).1)) := by
  constructor
  · refine ⟨?_, ?_, ?_, ?_⟩
    · intro peer chain channelId initiator amount h
      unfold SwapOut
      rw [if_pos h]
    · intro peer chain channelId initiator amount h
      unfold SwapIn
      rw [if_pos h]
    · intro sid peerId message h
      unfold OnSwapOutRequestReceived
      rw [if_pos h]
    · intro sid peerId message h
      unfold OnSwapInRequestReceived
      rw [if_pos h]
  · intro hse hinv
    exact ⟨fun peer chain channelId initiator amount =>
        SwapOut_scid_preserved env s hse hinv peer chain channelId initiator amount,
      fun peer chain channelId initiator amount =>
        SwapIn_scid_preserved env s hse hinv peer chain channelId initiator amount,
      fun sid peerId message =>
        OnSwapOutRequestReceived_scid_preserved env s hse hinv sid peerId message,
      fun sid peerId message =>
        OnSwapInRequestReceived_scid_preserved env s hse hinv sid peerId message⟩

/-- Witness for C3: a second `SwapOut` on the busy channel
`539268x845x1` fails with `ErrActiveSwapOnChannel` and leaves the
registry unchanged, and a `SwapOut` from the empty registry preserves
the invariant. -/
theorem active_swap_per_channel_admission_witness :
    SwapOut env0 sOneChan "P" "btc" "539268x845x1" "I" 5 =
      (sOneChan, Except.error GoError.activeSwapOnChannel, []) ∧
    scidInvariant (SwapOut env0 emptyService "P" "btc" "600000x1x0" "I" 5).1 := by
  constructor
  · exact (active_swap_per_channel_admission env0 sOneChan).1.1
      "P" "btc" "539268x845x1" "I" 5 (by decide)
  · exact ((active_swap_per_channel_admission env0 emptyService).2
      (fun m e => rfl) (fun c => by simp [emptyService])).1
      "P" "btc" "600000x1x0" "I" 5

/-- Claim C2 (the code side): `OnSwapInRequestReceived` stores the new
in-receiver swap with `SwapData` type `SWAPTYPE_OUT`, so the
`(Type, Role)` selection of `RecoverSwaps` rebuilds it as a swap-out
receiver machine, not a swap-in receiver machine. -/
theorem OnSwapInRequestReceived_stores_swaptype_out :
    ((OnSwapInRequestReceived env0 emptyService sid0 "peerB" msgIn0).1.activeSwaps.map
        (fun kv => (kv.2.data.swapType, kv.2.data.role))) =
      [(SwapType.swaptypeOut, SwapRole.receiver)] ∧
    ((RecoverSwaps env0 emptyService
        ((OnSwapInRequestReceived env0 emptyService sid0 "peerB" msgIn0).1.activeSwaps.map
          (fun kv => kv.2.data))).1.activeSwaps.map (fun kv => kv.2.kind)) =
      [MachineKind.swapOutReceiver] ∧
    MachineKind.swapOutReceiver ≠ MachineKind.swapInReceiver := by
  decide

/-- Claim C4: payloads over 102400 bytes are rejected with the
payload-too-large error before the type tag is parsed or anything is
deserialized (the result does not depend on the environment and the
registry is untouched); payloads of at most 102400 bytes pass the size
check and reach the dispatch switch. -/
theorem OnMessageReceived_payload_limit (s : SwapService)
    (peerId msgTypeString : String) (payload : List Nat) :
    (payload.length > 102400 → ∀ env : Env,
      OnMessageReceived env s peerId msgTypeString payload =
        (s, some GoError.payloadTooLarge, [])) ∧
    (payload.length ≤ 102400 → ∀ env : Env,
      OnMessageReceived env s peerId msgTypeString payload =
        (match env.hexToMsgType msgTypeString with
         | .error e => (s, some e, [])
         | .ok msgType => OnMessageReceivedBody env s peerId payload msgType)) := by
  constructor
  · intro h env
    have h' : payload.length > 100 * 1024 := by omega
    unfold OnMessageReceived
    rw [if_pos h']
  · intro h env
    have h' : ¬ payload.length > 100 * 1024 := by omega
    unfold OnMessageReceived
    rw [if_neg h']

/-- Witness for C4: a 102401-byte payload is rejected without consulting
the environment; an empty payload reaches the dispatch switch. -/
theorem OnMessageReceived_payload_limit_witness :
    OnMessageReceived env0 emptyService "p" "t" (List.replicate 102401 0) =
      (emptyService, some GoError.payloadTooLarge, []) ∧
    OnMessageReceived env0 emptyService "p" "t" [] =
      OnMessageReceivedBody env0 emptyService "p" [] MessageType.swapOutRequest := by
  constructor
  · exact (OnMessageReceived_payload_limit emptyService "p" "t"
      (List.replicate 102401 0)).1
      (by rw [List.length_replicate]; omega) env0
  · exact ((OnMessageReceived_payload_limit emptyService "p" "t" []).2
      (by simp) env0).trans rfl

/-- Claim C1: for each non-request message type (out-agreement,
in-agreement, opening-tx-broadcasted, cancel, coop-close) naming an
active swap, a sender that is not the swap partner is answered with
`ErrReceivedMessageFromUnexpectedPeer`, the registry is unchanged and
no event reaches any machine; the two request types are dispatched to
their handlers without any peer check. -/
theorem OnMessageReceived_sender_peer_check (env : Env) (s : SwapService)
    (peerId msgTypeString : String) (payload : List Nat)
    (hlen : payload.length ≤ 102400) :
    ((env.hexToMsgType msgTypeString = .ok MessageType.swapOutAgreement →
      ∀ msg m, env.unmarshalOutAgreement payload = .ok msg →
        GetActiveSwap s msg.swapId.render = .ok m →
        m.data.peerNodeId ≠ peerId →
        OnMessageReceived env s peerId msgTypeString payload =
          (s, some (GoError.unexpectedPeer peerId msg.swapId.render), [])) ∧
     (env.hexToMsgType msgTypeString = .ok MessageType.swapInAgreement →
      ∀ msg m, env.unmarshalInAgreement payload = .ok msg →
        GetActiveSwap s msg.swapId.render = .ok m →
        m.data.peerNodeId ≠ peerId →
        OnMessageReceived env s peerId msgTypeString payload =
          (s, some (GoError.unexpectedPeer peerId msg.swapId.render), [])) ∧
     (env.hexToMsgType msgTypeString = .ok MessageType.openingTxBroadcasted →
      ∀ msg m, env.unmarshalOpeningTx payload = .ok msg →
        GetActiveSwap s msg.swapId.render = .ok m →
        m.data.peerNodeId ≠ peerId →
        OnMessageReceived env s peerId msgTypeString payload =
          (s, some (GoError.unexpectedPeer peerId msg.swapId.render), [])) ∧
     (env.hexToMsgType msgTypeString = .ok MessageType.canceled →
      ∀ msg m, env.unmarshalCancel payload = .ok msg →
        GetActiveSwap s msg.swapId.render = .ok m →
        m.data.peerNodeId ≠ peerId →
        OnMessageReceived env s peerId msgTypeString payload =
          (s, some (GoError.unexpectedPeer peerId msg.swapId.render), [])) ∧
     (env.hexToMsgType msgTypeString = .ok MessageType.coopClose →
      ∀ msg m, env.unmarshalCoopClose payload = .ok msg →
        GetActiveSwap s msg.swapId.render = .ok m →
        m.data.peerNodeId ≠ peerId →
        OnMessageReceived env s peerId msgTypeString payload =
          (s, some (GoError.unexpectedPeer peerId msg.swapId.render), []))) ∧
    ((env.hexToMsgType msgTypeString = .ok MessageType.swapOutRequest →
      ∀ msg, env.unmarshalOutRequest payload = .ok msg →
        OnMessageReceived env s peerId msgTypeString payload =
          OnSwapOutRequestReceived env s msg.swapId peerId msg) ∧
     (env.hexToMsgType msgTypeString = .ok MessageType.swapInRequest →
      ∀ msg, env.unmarshalInRequest payload = .ok msg →
        OnMessageReceived env s peerId msgTypeString payload =
          OnSwapInRequestReceived env s msg.swapId peerId msg)) := by
  have h' : ¬ payload.length > 100 * 1024 := by omega
  constructor
  · refine ⟨?_, ?_, ?_, ?_, ?_⟩ <;>
    · intro hty msg m hun hget hne
      have hb : (m.data.peerNodeId == peerId) = false :=
        beq_eq_false_iff_ne.mpr hne
      unfold OnMessageReceived
      rw [if_neg h', hty]
      simp [OnMessageReceivedBody, hun, isMessageSenderExpectedPeer, hget, hb]
  · constructor <;>
    · intro hty msg hun
      unfold OnMessageReceived
      rw [if_neg h', hty]
      simp [OnMessageReceivedBody, hun]

/-- Witness for C1: the registered swap `sid0` has partner `A`; the same
out-agreement sent by `B` is rejected as coming from an unexpected peer
with the registry untouched and no event delivered. -/
theorem OnMessageReceived_sender_peer_check_witness :
    OnMessageReceived
      { env0 with
        hexToMsgType := fun _ => .ok MessageType.swapOutAgreement
      , unmarshalOutAgreement := fun _ => .ok msgOutAgr0 }
      sOne "B" "a103" [] =
      (sOne, some (GoError.unexpectedPeer "B" sid0.render), []) := by
  exact (OnMessageReceived_sender_peer_check
    { env0 with
      hexToMsgType := fun _ => .ok MessageType.swapOutAgreement
    , unmarshalOutAgreement := fun _ => .ok msgOutAgr0 }
    sOne "B" "a103" [] (by simp)).1.1 rfl msgOutAgr0 sw0 rfl rfl
    (by decide)

/-- Counterexample for C6: called with a swap id that is not active,
each of `OnTxConfirmed`, `OnCsvPassed`, `OnFeeInvoicePaid` and
`OnClaimInvoicePaid` returns `ErrSwapDoesNotExist` to its caller — the
error is propagated, not swallowed. -/
theorem callback_not_found_returns_error :
    (OnTxConfirmed env0 emptyService sid0.render "aa").2.1 =
      some GoError.swapDoesNotExist ∧
    (OnCsvPassed env0 emptyService sid0.render).2.1 =
      some GoError.swapDoesNotExist ∧
    (OnFeeInvoicePaid env0 emptyService sid0).2.1 =
      some GoError.swapDoesNotExist ∧
    (OnClaimInvoicePaid env0 emptyService sid0).2.1 =
      some GoError.swapDoesNotExist := by
  decide

/-- Claim C6 as amended: with a swap id that is not active, the four
callback handlers perform no further work — no event is delivered and
the registry is unchanged — but each returns `ErrSwapDoesNotExist` to
its caller; the error is only swallowed at the `OnPayment` callback
boundary, which logs it and returns normally. -/
theorem callback_not_found_noop_but_error (env : Env) (s : SwapService)
    (swapId : String) (txHex : String)
    (h : mapGet s.activeSwaps swapId = none) :
    OnTxConfirmed env s swapId txHex = (s, some GoError.swapDoesNotExist, []) ∧
    OnCsvPassed env s swapId = (s, some GoError.swapDoesNotExist, []) ∧
    (∀ sid : SwapId, sid.render = swapId →
      OnFeeInvoicePaid env s sid = (s, some GoError.swapDoesNotExist, []) ∧
      OnClaimInvoicePaid env s sid = (s, some GoError.swapDoesNotExist, []) ∧
      (∀ d : String, getPaymentLabel d = "fee" →
        ParseSwapIdFromString (String.mk (d.data.drop 4)) = .ok sid →
        OnPayment env s d = (s, []))) := by
  have hga : GetActiveSwap s swapId = .error GoError.swapDoesNotExist := by
    unfold GetActiveSwap
    rw [h]
  refine ⟨?_, ?_, ?_⟩
  · unfold OnTxConfirmed
    rw [hga]
  · unfold OnCsvPassed
    rw [hga]
  · intro sid hsid
    have hga2 : GetActiveSwap s sid.render = .error GoError.swapDoesNotExist := by
      rw [hsid]
      exact hga
    have hfee : OnFeeInvoicePaid env s sid =
        (s, some GoError.swapDoesNotExist, []) := by
      unfold OnFeeInvoicePaid
      rw [hga2]
    have hclaim : OnClaimInvoicePaid env s sid =
        (s, some GoError.swapDoesNotExist, []) := by
      unfold OnClaimInvoicePaid
      rw [hga2]
    refine ⟨hfee, hclaim, ?_⟩
    intro d hl hp
    simp only [OnPayment]
    rw [if_pos hl, hp]
    simp [hfee]

/-- Witness for C6 (amended): with the empty registry, `OnTxConfirmed`
returns `ErrSwapDoesNotExist` with no state change and no event, and
`OnPayment` on the matching fee description swallows it. -/
theorem callback_not_found_noop_but_error_witness :
    OnTxConfirmed env0 emptyService sid0.render "aa" =
      (emptyService, some GoError.swapDoesNotExist, []) ∧
    OnPayment env0 emptyService
      (String.mk ('f' :: 'e' :: 'e' :: '_' :: List.replicate 64 'a')) =
      (emptyService, []) := by
  have h := callback_not_found_noop_but_error env0 emptyService sid0.render "aa"
    (by decide)
  refine ⟨h.1, ?_⟩
  exact (h.2.2 sid0 rfl).2.2
    (String.mk ('f' :: 'e' :: 'e' :: '_' :: List.replicate 64 'a'))
    (by decide) rfl

/-- Claim C7: inside `OnTxConfirmed` and `OnCsvPassed`, a `SendEvent`
result of `ErrEventRejected` is swallowed and the call returns nil,
while any other non-nil `SendEvent` error is returned to the caller. -/
theorem event_rejected_swallowed (env : Env) (s : SwapService)
    (swapId : String) (txHex : String) :
    (∀ m, GetActiveSwap s swapId = .ok m →
      (((env.sendEvent { m with data := { m.data with openingTxHex := txHex } }
            Event.onTxConfirmed).2.2 = some GoError.eventRejected →
        (OnTxConfirmed env s swapId txHex).2.1 = none) ∧
       (∀ e, e ≠ GoError.eventRejected →
        (env.sendEvent { m with data := { m.data with openingTxHex := txHex } }
            Event.onTxConfirmed).2.2 = some e →
        (OnTxConfirmed env s swapId txHex).2.1 = some e))) ∧
    (∀ m, GetActiveSwap s swapId = .ok m →
      (((env.sendEvent m Event.onCsvPassed).2.2 = some GoError.eventRejected →
        (OnCsvPassed env s swapId).2.1 = none) ∧
       (∀ e, e ≠ GoError.eventRejected →
        (env.sendEvent m Event.onCsvPassed).2.2 = some e →
        (OnCsvPassed env s swapId).2.1 = some e))) := by
  constructor
  · intro m hget
    constructor
    · intro hrej
      simp [OnTxConfirmed, hget, hrej]
    · intro e hne hsome
      have hcond : ¬ (some e = some GoError.eventRejected) := by
        simp [hne]
      simp [OnTxConfirmed, hget, hsome, hcond]
  · intro m hget
    constructor
    · intro hrej
      simp [OnCsvPassed, hget, hrej]
    · intro e hne hsome
      have hcond : ¬ (some e = some GoError.eventRejected) := by
        simp [hne]
      simp [OnCsvPassed, hget, hsome, hcond]

/-- Witness for C7: with an engine that rejects every event, a late
`OnTxConfirmed` for the registered swap returns nil; with an engine
that fails with another error, the error is returned. -/
theorem event_rejected_swallowed_witness :
    (OnTxConfirmed
      { env0 with sendEvent := fun m _ => (m, false, some GoError.eventRejected) }
      sOne sid0.render "aa").2.1 = none ∧
    (OnTxConfirmed
      { env0 with sendEvent := fun m _ => (m, false, some (GoError.msgError "x")) }
      sOne sid0.render "aa").2.1 = some (GoError.msgError "x") := by
  constructor
  · exact ((event_rejected_swallowed
      { env0 with sendEvent := fun m _ => (m, false, some GoError.eventRejected) }
      sOne sid0.render "aa").1 sw0 rfl).1 rfl
  · exact ((event_rejected_swallowed
      { env0 with sendEvent := fun m _ => (m, false, some (GoError.msgError "x")) }
      sOne sid0.render "aa").1 sw0 rfl).2 (GoError.msgError "x") (by decide) rfl

/-- Claim C10: `OnTxConfirmed` writes the supplied tx hex into
`Data.OpeningTxHex` before delivering `Event_OnTxConfirmed`; when the
engine rejects the event without mutating the machine, the call still
returns nil and the registered swap keeps the overwritten
`OpeningTxHex` — the no-op does not leave `SwapData` unchanged. -/
theorem OnTxConfirmed_overwrites_opening_tx_hex (env : Env) (s : SwapService)
    (swapId txHex : String) (m : SwapStateMachine)
    (hget : GetActiveSwap s swapId = .ok m)
    (hstay : (env.sendEvent { m with data := { m.data with openingTxHex := txHex } }
        Event.onTxConfirmed).1 =
      { m with data := { m.data with openingTxHex := txHex } })
    (hrej : (env.sendEvent { m with data := { m.data with openingTxHex := txHex } }
        Event.onTxConfirmed).2.2 = some GoError.eventRejected) :
    (OnTxConfirmed env s swapId txHex).2.1 = none ∧
    (OnTxConfirmed env s swapId txHex).2.2 =
      [({ m with data := { m.data with openingTxHex := txHex } },
        Event.onTxConfirmed)] ∧
    mapGet (OnTxConfirmed env s swapId txHex).1.activeSwaps swapId =
      some { m with data := { m.data with openingTxHex := txHex } } := by
  refine ⟨?_, ?_, ?_⟩ <;>
    simp [OnTxConfirmed, hget, AddActiveSwap, hstay, hrej, mapGet_mapSet_self]

/-- Witness for C10: the registered swap `sid0` starts with an empty
`OpeningTxHex`; after a rejected `OnTxConfirmed` the call reports nil
and the stored record carries the new hex. -/
theorem OnTxConfirmed_overwrites_opening_tx_hex_witness :
    sw0.data.openingTxHex = "" ∧
    (OnTxConfirmed
      { env0 with sendEvent := fun m _ => (m, false, some GoError.eventRejected) }
      sOne sid0.render "deadbeef").2.1 = none ∧
    mapGet (OnTxConfirmed
      { env0 with sendEvent := fun m _ => (m, false, some GoError.eventRejected) }
      sOne sid0.render "deadbeef").1.activeSwaps sid0.render =
      some { sw0 with data := { sw0.data with openingTxHex := "deadbeef" } } := by
  have h := OnTxConfirmed_overwrites_opening_tx_hex
    { env0 with sendEvent := fun m _ => (m, false, some GoError.eventRejected) }
    sOne sid0.render "deadbeef" sw0 rfl rfl rfl
  exact ⟨rfl, h.1, h.2.2⟩

/-- Claim C5: a stage message failing validation does not fire the
normal stage event and does not store the envelope; the handler goes
through `HandleInvalidMessage` (or the identical inline code for the
in-agreement), which sets the cancel message to `invalid request `
followed by the validation error and fires `Event_OnInvalid_Message`
on the otherwise-unchanged machine. -/
theorem invalid_stage_message_cancel_branch (env : Env) (s : SwapService) :
    (∀ (msg : SwapOutAgreementMessage) m verr,
      GetActiveSwap s msg.swapId.render = .ok m →
      env.validateOutAgreement msg = some verr →
      OnSwapOutAgreementReceived env s msg =
        HandleInvalidMessage env s msg.swapId.render m verr) ∧
    (∀ (msg : SwapInAgreementMessage) m verr,
      GetActiveSwap s msg.swapId.render = .ok m →
      env.validateInAgreement msg = some verr →
      OnSwapInAgreementReceived env s msg =
        HandleInvalidMessage env s msg.swapId.render m verr) ∧
    (∀ (msg : OpeningTxBroadcastedMessage) m verr,
      GetActiveSwap s msg.swapId.render = .ok m →
      env.validateOpeningTx m.data.GetChain msg = some verr →
      OnTxOpenedMessage env s msg =
        HandleInvalidMessage env s msg.swapId.render m verr) ∧
    (∀ (msg : CoopCloseMessage) m verr,
      GetActiveSwap s msg.swapId.render = .ok m →
      env.validateCoopClose msg = some verr →
      OnCoopCloseReceived env s msg.swapId msg =
        HandleInvalidMessage env s msg.swapId.render m verr) ∧
    (∀ k m verr,
      (HandleInvalidMessage env s k m verr).2.2 =
        [({ m with data := { m.data with
              cancelMessage := "invalid request " ++ verr } },
          Event.onInvalidMessage)]) := by
  refine ⟨?_, ?_, ?_, ?_, ?_⟩
  · intro msg m verr hget hval
    simp [OnSwapOutAgreementReceived, hget, hval]
  · intro msg m verr hget hval
    simp [OnSwapInAgreementReceived, HandleInvalidMessage, hget, hval]
  · intro msg m verr hget hval
    simp [OnTxOpenedMessage, hget, hval]
  · intro msg m verr hget hval
    simp [OnCoopCloseReceived, hget, hval]
  · intro k m verr
    simp only [HandleInvalidMessage]
    split <;> rfl

/-- Witness for C5: a failing out-agreement validation routes the
registered swap through `HandleInvalidMessage`, whose only delivered
event is `Event_OnInvalid_Message` on the machine carrying the
`invalid request` cancel message. -/
theorem invalid_stage_message_cancel_branch_witness :
    OnSwapOutAgreementReceived
      { env0 with validateOutAgreement := fun _ => some "bad version" }
      sOne msgOutAgr0 =
      HandleInvalidMessage
        { env0 with validateOutAgreement := fun _ => some "bad version" }
        sOne sid0.render sw0 "bad version" ∧
    (HandleInvalidMessage env0 sOne sid0.render sw0 "bad version").2.2 =
      [({ sw0 with data := { sw0.data with
            cancelMessage := "invalid request bad version" } },
        Event.onInvalidMessage)] := by
  constructor
  · exact (invalid_stage_message_cancel_branch
      { env0 with validateOutAgreement := fun _ => some "bad version" }
      sOne).1 msgOutAgr0 sw0 "bad version" rfl rfl
  · exact (invalid_stage_message_cancel_branch env0 sOne).2.2.2.2
      sid0.render sw0 "bad version"

theorem splitN2Underscore_fee (rest : List Char) :
    splitN2Underscore ('f' :: 'e' :: 'e' :: '_' :: rest) =
      [['f', 'e', 'e'], rest] := rfl

theorem splitN2Underscore_claim (rest : List Char) :
    splitN2Underscore ('c' :: 'l' :: 'a' :: 'i' :: 'm' :: '_' :: rest) =
      [['c', 'l', 'a', 'i', 'm'], rest] := rfl

theorem getPaymentLabel_fee (rest : List Char) :
    getPaymentLabel (String.mk ('f' :: 'e' :: 'e' :: '_' :: rest)) = "fee" := by
  unfold getPaymentLabel
  rw [show (String.mk ('f' :: 'e' :: 'e' :: '_' :: rest)).data =
      'f' :: 'e' :: 'e' :: '_' :: rest from rfl, splitN2Underscore_fee]
  rfl

theorem getPaymentLabel_claim (rest : List Char) :
    getPaymentLabel
      (String.mk ('c' :: 'l' :: 'a' :: 'i' :: 'm' :: '_' :: rest)) = "claim" := by
  unfold getPaymentLabel
  rw [show (String.mk ('c' :: 'l' :: 'a' :: 'i' :: 'm' :: '_' :: rest)).data =
      'c' :: 'l' :: 'a' :: 'i' :: 'm' :: '_' :: rest from rfl,
    splitN2Underscore_claim]
  rfl

/-- Claim C8: `fee_<parsable-id>` descriptions dispatch
`OnFeeInvoicePaid` with that id, `claim_<parsable-id>` descriptions
dispatch `OnClaimInvoicePaid`, and every other description — unknown
label, missing separator, or unparsable id — dispatches neither and
returns without signalling an error. -/
theorem OnPayment_label_dispatch (env : Env) (s : SwapService) :
    (∀ (rest : List Char) (swapId : SwapId),
      ParseSwapIdFromString (String.mk rest) = .ok swapId →
      OnPayment env s (String.mk ('f' :: 'e' :: 'e' :: '_' :: rest)) =
        ((OnFeeInvoicePaid env s swapId).1,
         (OnFeeInvoicePaid env s swapId).2.2)) ∧
    (∀ (rest : List Char) (swapId : SwapId),
      ParseSwapIdFromString (String.mk rest) = .ok swapId →
      OnPayment env s (String.mk ('c' :: 'l' :: 'a' :: 'i' :: 'm' :: '_' :: rest)) =
        ((OnClaimInvoicePaid env s swapId).1,
         (OnClaimInvoicePaid env s swapId).2.2)) ∧
    (∀ d : String, getPaymentLabel d ≠ "fee" → getPaymentLabel d ≠ "claim" →
      OnPayment env s d = (s, [])) ∧
    (∀ (d : String) e, getPaymentLabel d = "fee" →
      ParseSwapIdFromString (String.mk (d.data.drop 4)) = .error e →
      OnPayment env s d = (s, [])) ∧
    (∀ (d : String) e, getPaymentLabel d = "claim" →
      ParseSwapIdFromString (String.mk (d.data.drop 6)) = .error e →
      OnPayment env s d = (s, [])) := by
  refine ⟨?_, ?_, ?_, ?_, ?_⟩
  · intro rest swapId hp
    simp only [OnPayment, getPaymentLabel_fee, if_true]
    rw [show List.drop 4 ('f' :: 'e' :: 'e' :: '_' :: rest) = rest from rfl, hp]
  · intro rest swapId hp
    simp only [OnPayment, getPaymentLabel_claim, if_true]
    rw [show List.drop 6 ('c' :: 'l' :: 'a' :: 'i' :: 'm' :: '_' :: rest) =
      rest from rfl, hp, if_neg (show ("claim" : String) ≠ "fee" by decide)]
  · intro d h1 h2
    simp only [OnPayment]
    rw [if_neg h1, if_neg h2]
  · intro d e hl hp
    simp only [OnPayment]
    rw [if_pos hl, hp]
  · intro d e hl hp
    have hne : getPaymentLabel d ≠ "fee" := by
      rw [hl]
      decide
    simp only [OnPayment]
    rw [if_neg hne, if_pos hl, hp]

/-- Witness for C8: a `fee_` description with a 64-hex id dispatches to
`OnFeeInvoicePaid`, and a description with an unknown label is
ignored. -/
theorem OnPayment_label_dispatch_witness :
    OnPayment env0 emptyService
      (String.mk ('f' :: 'e' :: 'e' :: '_' :: List.replicate 64 'a')) =
      ((OnFeeInvoicePaid env0 emptyService sid0).1,
       (OnFeeInvoicePaid env0 emptyService sid0).2.2) ∧
    OnPayment env0 emptyService "hello" = (emptyService, []) := by
  constructor
  · exact (OnPayment_label_dispatch env0 emptyService).1
      (List.replicate 64 'a') sid0 rfl
  · exact (OnPayment_label_dispatch env0 emptyService).2.2.1 "hello"
      (by decide) (by decide)

/-- Counterexample for C9: `SwapOut` does not validate the chain
argument; with chain `doge` the call still returns without error and
the staged request has BOTH `Asset` and `Network` empty, so it is not
the case that exactly one of the two is non-empty on every successful
call. -/
theorem SwapOut_unknown_chain_both_empty :
    ((SwapOut env0 emptyService "P" "doge" "600000x1x0" "I" 100000).2.1.toOption.map
        (fun m => m.data.swapOutRequest.map (fun r => (r.asset, r.network)))) =
      some (some ("", "")) := by
  rfl

theorem swapOutStagedRequest_fields (env : Env) (d0 : SwapData) (sid : SwapId)
    (chain channelId : String) (amount : Nat) :
    (swapOutStagedRequest env d0 sid chain channelId amount).protocolVersion = 2 ∧
    (swapOutStagedRequest env d0 sid chain channelId amount).swapId = sid ∧
    (swapOutStagedRequest env d0 sid chain channelId amount).scid = channelId ∧
    (swapOutStagedRequest env d0 sid chain channelId amount).amount = amount ∧
    (swapOutStagedRequest env d0 sid chain channelId amount).pubkey =
      d0.privkeyPubkeyHex ∧
    (chain = l_btc_chain →
      (swapOutStagedRequest env d0 sid chain channelId amount).asset =
        env.liquidWalletAsset ∧
      (swapOutStagedRequest env d0 sid chain channelId amount).network = "") ∧
    (chain ≠ l_btc_chain → chain = btc_chain →
      (swapOutStagedRequest env d0 sid chain channelId amount).network =
        env.bitcoinWalletNetwork ∧
      (swapOutStagedRequest env d0 sid chain channelId amount).asset = "") ∧
    (chain ≠ l_btc_chain → chain ≠ btc_chain →
      (swapOutStagedRequest env d0 sid chain channelId amount).asset = "" ∧
      (swapOutStagedRequest env d0 sid chain channelId amount).network = "") := by
  refine ⟨rfl, rfl, rfl, rfl, rfl, ?_, ?_, ?_⟩
  · intro h
    simp [swapOutStagedRequest, h]
  · intro h1 h2
    simp only [swapOutStagedRequest, h1, h2]
    rw [if_neg (show btc_chain ≠ l_btc_chain by decide)]
    exact ⟨rfl, rfl⟩
  · intro h1 h2
    simp [swapOutStagedRequest, h1, h2]

theorem SwapOut_trace_of_marshal_ok (env : Env) (s : SwapService)
    (peer chain channelId initiator : String) (amount : Nat)
    (nm : List Nat) (nmt : MessageType)
    (hbusy : hasActiveSwapOnChannel s channelId = false)
    (hmar : env.marshal (PeerswapMessage.outRequest (swapOutStagedRequest env
        (NewSwapData env env.freshSwapId SwapType.swaptypeOut initiator peer)
        env.freshSwapId chain channelId amount)) = .ok (nm, nmt)) :
    (SwapOut env s peer chain channelId initiator amount).2.2 =
      [(swapOutStagedMachine env peer chain channelId initiator amount nm nmt,
        Event.onSwapOutStarted)] := by
  unfold SwapOut
  rw [if_neg (by rw [hbusy]; exact Bool.false_ne_true)]
  dsimp only [newSwapOutSenderFSM]
  rw [hmar]
  dsimp only []
  split <;> rfl

/-- Claim C9 as amended: every `SwapOut` call that returns without
error delivered `Event_OnSwapOutStarted` to a machine whose staged
`SwapOutRequest` has protocol version 2, the fresh swap id, the given
scid and amount, the ephemeral pubkey, and whose marshalled form is
stored in `NextMessage`/`NextMessageType`; `Asset` is the liquid wallet
asset exactly when chain is `l-btc`, `Network` is the bitcoin wallet
network exactly when chain is `btc` — so exactly one of the two is
non-empty for those two chains (with non-empty wallet values) — and for
any other chain string both fields are empty, because `SwapOut`
performs no chain validation. -/
theorem SwapOut_staged_request_fields (env : Env) (s : SwapService)
    (peer chain channelId initiator : String) (amount : Nat)
    (ret : SwapStateMachine)
    (hok : (SwapOut env s peer chain channelId initiator amount).2.1 =
      .ok ret) :
    ∃ staged req,
      (SwapOut env s peer chain channelId initiator amount).2.2 =
        [(staged, Event.onSwapOutStarted)] ∧
      staged.data.swapOutRequest = some req ∧
      req.protocolVersion = 2 ∧
      req.swapId = env.freshSwapId ∧
      req.scid = channelId ∧
      req.amount = amount ∧
      req.pubkey = staged.data.privkeyPubkeyHex ∧
      (chain = l_btc_chain →
        req.asset = env.liquidWalletAsset ∧ req.network = "") ∧
      (chain ≠ l_btc_chain → chain = btc_chain →
        req.network = env.bitcoinWalletNetwork ∧ req.asset = "") ∧
      (chain ≠ l_btc_chain → chain ≠ btc_chain →
        req.asset = "" ∧ req.network = "") ∧
      (env.liquidWalletAsset ≠ "" → env.bitcoinWalletNetwork ≠ "" →
        (chain = l_btc_chain ∨ chain = btc_chain) →
        ((req.asset ≠ "" ∧ req.network = "") ∨
         (req.asset = "" ∧ req.network ≠ ""))) ∧
      (∃ ty, env.marshal (PeerswapMessage.outRequest req) =
          .ok (staged.data.nextMessage, ty) ∧
        staged.data.nextMessageType = some ty) := by
  have hbusy : hasActiveSwapOnChannel s channelId = false := by
    cases hb : hasActiveSwapOnChannel s channelId with
    | false => rfl
    | true =>
      unfold SwapOut at hok
      rw [if_pos hb] at hok
      exact absurd hok (by simp)
  have hmarEx : ∃ nm nmt,
      env.marshal (PeerswapMessage.outRequest (swapOutStagedRequest env
        (NewSwapData env env.freshSwapId SwapType.swaptypeOut initiator peer)
        env.freshSwapId chain channelId amount)) = .ok (nm, nmt) := by
    cases hm : env.marshal (PeerswapMessage.outRequest (swapOutStagedRequest env
        (NewSwapData env env.freshSwapId SwapType.swaptypeOut initiator peer)
        env.freshSwapId chain channelId amount)) with
    | ok p => exact ⟨p.1, p.2, rfl⟩
    | error e =>
      exfalso
      unfold SwapOut at hok
      rw [if_neg (by rw [hbusy]; exact Bool.false_ne_true)] at hok
      dsimp only [newSwapOutSenderFSM] at hok
      rw [hm] at hok
      exact absurd hok (by simp)
  obtain ⟨nm, nmt, hmar⟩ := hmarEx
  have hf := swapOutStagedRequest_fields env
    (NewSwapData env env.freshSwapId SwapType.swaptypeOut initiator peer)
    env.freshSwapId chain channelId amount
  refine ⟨swapOutStagedMachine env peer chain channelId initiator amount nm nmt,
    swapOutStagedRequest env
      (NewSwapData env env.freshSwapId SwapType.swaptypeOut initiator peer)
      env.freshSwapId chain channelId amount,
    SwapOut_trace_of_marshal_ok env s peer chain channelId initiator amount
      nm nmt hbusy hmar,
    rfl, rfl, rfl, rfl, rfl, rfl,
    hf.2.2.2.2.2.1, hf.2.2.2.2.2.2.1, hf.2.2.2.2.2.2.2, ?_,
    ⟨nmt, hmar, rfl⟩⟩
  intro hA hN hval
  cases hval with
  | inl h =>
    obtain ⟨ha, hn⟩ := hf.2.2.2.2.2.1 h
    exact Or.inl ⟨by rw [ha]; exact hA, hn⟩
  | inr h =>
    have hne : chain ≠ l_btc_chain := by
      rw [h]
      decide
    obtain ⟨hn, ha⟩ := hf.2.2.2.2.2.2.1 hne h
    exact Or.inr ⟨ha, by rw [hn]; exact hN⟩

/-- Witness for C9 (amended): a concrete successful `SwapOut` on chain
`btc` exhibits the staged request with all the claimed fields. -/
theorem SwapOut_staged_request_fields_witness :
    ∃ staged req,
      (SwapOut env0 emptyService "P" "btc" "600000x1x0" "I" 7).2.2 =
        [(staged, Event.onSwapOutStarted)] ∧
      staged.data.swapOutRequest = some req ∧
      req.protocolVersion = 2 ∧
      req.swapId = env0.freshSwapId ∧
      req.scid = "600000x1x0" ∧
      req.amount = 7 ∧
      req.pubkey = staged.data.privkeyPubkeyHex ∧
      ("btc" = l_btc_chain →
        req.asset = env0.liquidWalletAsset ∧ req.network = "") ∧
      ("btc" ≠ l_btc_chain → "btc" = btc_chain →
        req.network = env0.bitcoinWalletNetwork ∧ req.asset = "") ∧
      ("btc" ≠ l_btc_chain → "btc" ≠ btc_chain →
        req.asset = "" ∧ req.network = "") ∧
      (env0.liquidWalletAsset ≠ "" → env0.bitcoinWalletNetwork ≠ "" →
        ("btc" = l_btc_chain ∨ "btc" = btc_chain) →
        ((req.asset ≠ "" ∧ req.network = "") ∨
         (req.asset = "" ∧ req.network ≠ ""))) ∧
      (∃ ty, env0.marshal (PeerswapMessage.outRequest req) =
          .ok (staged.data.nextMessage, ty) ∧
        staged.data.nextMessageType = some ty) := by
  exact SwapOut_staged_request_fields env0 emptyService "P" "btc" "600000x1x0"
    "I" 7
    (swapOutStagedMachine env0 "P" "btc" "600000x1x0" "I" 7 [7]
      MessageType.swapOutRequest) rfl

end PeerswapSwap
